import Mathlib

/-!
Shallow embedding of `scripts/report_generator.py` (Blackboard admin
enrollment report generator).

Python values that can appear in the loosely-typed JSON records are
modelled by `PyValue`; raw records are structures whose fields are
`Option PyValue` (absent vs. present).  Pandas DataFrames are modelled as
Lean lists of typed row structures; an inner `merge` on a key is modelled
as one output row per matching pair preserving left-row order, which is
pandas' documented behaviour for `how="inner"`.  Fallible loading and
validation are modelled with `Except`.  Python's `str.strip`, `str.lower`
and substring containment are modelled by structurally recursive
functions over `List Char` (ASCII-faithful, which covers all values the
program compares against).
-/

namespace ReportGen

/-- A Python/JSON scalar value as seen by the loaders.  `vOther` stands for
any value that is neither a bool, a string nor `None` (numbers, lists,
nested objects ...): the availability coercion treats all of those
uniformly as unrecognized, and string-field validation rejects all of them
uniformly. -/
inductive PyValue where
  | vBool (b : Bool)
  | vStr (s : String)
  | vNone
  | vOther
  deriving DecidableEq, Repr

/-- Model of Python `str.lower()` (ASCII case mapping). -/
def pyLower (s : String) : String := ⟨s.data.map Char.toLower⟩

/-- Model of Python `str.strip()`: drop leading and trailing whitespace. -/
def pyStrip (s : String) : String :=
  ⟨((s.data.dropWhile Char.isWhitespace).reverse.dropWhile Char.isWhitespace).reverse⟩

/-- Model of Python `needle in hay` substring containment on strings. -/
def containsSub (needle : List Char) : List Char → Bool
  | [] => needle.isEmpty
  | c :: cs => needle.isPrefixOf (c :: cs) || containsSub needle cs

/-- Decidable equality for `Except` results, so that concrete runs of the
fallible loaders can be checked by evaluation. -/
instance exceptDecidableEq {e a : Type} [DecidableEq e] [DecidableEq a] :
    DecidableEq (Except e a) := fun x y =>
  match x, y with
  | .ok v, .ok w =>
    if h : v = w then .isTrue (by rw [h])
    else .isFalse (by intro hc; cases hc; exact h rfl)
  | .error v, .error w =>
    if h : v = w then .isTrue (by rw [h])
    else .isFalse (by intro hc; cases hc; exact h rfl)
  | .ok _, .error _ => .isFalse (by intro hc; cases hc)
  | .error _, .ok _ => .isFalse (by intro hc; cases hc)

/-- `_coerce_available_to_bool` from the source: coerce the availability
`available` field from Yes/No/boolean to boolean.  A string is stripped and
lower-cased and compared against the yes-set and then the no-set; a genuine
boolean is returned as-is; everything else falls through to `false`
("treat unknown truthy as False to be conservative"). -/
def _coerce_available_to_bool : PyValue → Bool
  | .vStr s =>
    let lowered := pyLower (pyStrip s)
    if lowered ∈ ["yes", "true", "y", "1"] then true
    else if lowered ∈ ["no", "false", "n", "0"] then false
    else false
  | .vBool b => b
  | .vNone => false
  | .vOther => false

/-- `yes_no` from the source: convert boolean to Learn-style Yes/No string. -/
def yes_no (b : Bool) : String := if b then "Yes" else "No"

/-- `ALLOWED_ROLES` from the source. -/
def ALLOWED_ROLES : List String :=
  ["Instructor", "TeachingAssistant", "Student", "Grader", "Observer"]

/-- Validated `Course` model.  The pydantic `AvailabilityBool` wrapper is
flattened: `available` here is `availability.available` in the source. -/
structure Course where
  id : String
  courseId : String
  name : String
  description : Option String
  available : Bool
  deriving DecidableEq, Repr

/-- Validated `User` model, with the nested `UserName` and `Contact`
submodels flattened (`given`/`family` are `name.given`/`name.family`,
`email` is `contact.email`). -/
structure User where
  id : String
  userName : String
  given : String
  family : String
  email : String
  available : Bool
  deriving DecidableEq, Repr

/-- Validated `Enrollment` model (availability wrapper flattened). -/
structure Enrollment where
  id : String
  userId : String
  courseId : String
  role : String
  available : Bool
  deriving DecidableEq, Repr

/-- Row of `courses_df` as built by `_build_dataframes`. -/
structure CourseRow where
  courseInternalId : String
  courseId : String
  courseName : String
  term : String
  courseAvailable : Bool
  deriving DecidableEq, Repr

/-- Row of `users_df` as built by `_build_dataframes`. -/
structure UserRow where
  userId : String
  userName : String
  given : String
  family : String
  email : String
  userAvailable : Bool
  deriving DecidableEq, Repr

/-- Row of `enrollments_df` as built by `_build_dataframes`. -/
structure EnrollmentRow where
  enrollmentId : String
  userId : String
  courseInternalId : String
  role : String
  enrollmentAvailable : Bool
  deriving DecidableEq, Repr

/-- Row of the joined DataFrame produced by `_join_frames`: the columns of
the two inner merges plus the derived `userFullName` and `courseLabel`. -/
structure JoinedRow where
  enrollmentId : String
  userId : String
  courseInternalId : String
  role : String
  enrollmentAvailable : Bool
  userName : String
  given : String
  family : String
  email : String
  userAvailable : Bool
  courseId : String
  courseName : String
  term : String
  courseAvailable : Bool
  userFullName : String
  courseLabel : String
  deriving DecidableEq, Repr

/-- Term derivation from `_build_dataframes`:
`c.courseId.split("-")[-1] if "-" in c.courseId else ""` — the substring
after the last hyphen, or the empty string when no hyphen is present. -/
def term_of (courseId : String) : String :=
  if '-' ∈ courseId.data
  then ⟨(courseId.data.reverse.takeWhile (fun c => c ≠ '-')).reverse⟩
  else ""

/-- `_build_dataframes` from the source: convert validated models into the
three row lists (DataFrames) with normalized fields.  Note that the `term`
column is computed here, per course, before any join. -/
def _build_dataframes (courses : List Course) (users : List User)
    (enrollments : List Enrollment) :
    List CourseRow × List UserRow × List EnrollmentRow :=
  (courses.map fun c =>
     { courseInternalId := c.id
       courseId := c.courseId
       courseName := c.name
       term := term_of c.courseId
       courseAvailable := c.available },
   users.map fun u =>
     { userId := u.id
       userName := u.userName
       given := u.given
       family := u.family
       email := u.email
       userAvailable := u.available },
   enrollments.map fun e =>
     { enrollmentId := e.id
       userId := e.userId
       courseInternalId := e.courseId
       role := e.role
       enrollmentAvailable := e.available })

/-- Combine one enrollment row, user row and course row into a joined row,
adding the derived fields exactly as `_join_frames` does after the merges:
`userFullName = (given + " " + family).strip()` and
`courseLabel = courseId + " – " + courseName`. -/
def mkJoinedRow (e : EnrollmentRow) (u : UserRow) (c : CourseRow) : JoinedRow :=
  { enrollmentId := e.enrollmentId
    userId := e.userId
    courseInternalId := e.courseInternalId
    role := e.role
    enrollmentAvailable := e.enrollmentAvailable
    userName := u.userName
    given := u.given
    family := u.family
    email := u.email
    userAvailable := u.userAvailable
    courseId := c.courseId
    courseName := c.courseName
    term := c.term
    courseAvailable := c.courseAvailable
    userFullName := pyStrip (u.given ++ " " ++ u.family)
    courseLabel := c.courseId ++ " – " ++ c.courseName }

/-- `_join_frames` from the source: inner-merge `enrollments_df` with
`users_df` on `userId`, then with `courses_df` on `courseInternalId`, and
add the derived fields.  Pandas inner merge yields one row per matching
pair, preserving left-row order; with duplicate keys this is a product of
the matches, not first-match-wins.  The source's empty-input branch (which
backfills missing pandas columns so the merges do not raise) has no
separate analogue here: rows are typed records, so all columns always
exist, and the merge of an empty list is the empty list. -/
def _join_frames (courses_df : List CourseRow) (users_df : List UserRow)
    (enrollments_df : List EnrollmentRow) : List JoinedRow :=
  enrollments_df.flatMap fun e =>
    (users_df.filter fun u => u.userId == e.userId).flatMap fun u =>
      (courses_df.filter fun c => c.courseInternalId == e.courseInternalId).map
        fun c => mkJoinedRow e u c

/-- Availability-filter predicate from `_apply_filters`: keep rows where
all three of courseAvailable, userAvailable, enrollmentAvailable hold. -/
def allAvailable (r : JoinedRow) : Bool :=
  r.courseAvailable && r.userAvailable && r.enrollmentAvailable

/-- Python `re` metacharacters, per the `re` module documentation.  A
pattern containing none of them is a literal pattern: `re.compile` always
accepts it, and it matches exactly its own plain substring occurrences. -/
def reMetachars : List Char :=
  ['.', '^', '$', '*', '+', '?', '\x7b', '\x7d', '[', ']', '\\', '|',
   '(', ')']

/-- Course-filter needles on which the source's regex-based containment is
known to coincide with plain substring containment: metacharacter-free
(literal) patterns.  `pandas.Series.str.contains(needle, na=False)`
compiles the needle as a regex eagerly — even on an empty frame — and a
malformed pattern such as "(" raises an uncaught `re.error`, aborting the
run; for needles with metacharacters that do compile, matching is
regex-based, not substring-based.  Neither behaviour is representable in
this total model, so theorems that quantify over the course filter
restrict it to `none` or a literal pattern. -/
def isLiteralPattern (s : String) : Bool :=
  s.data.all fun c => !reMetachars.contains c

/-- Course-substring predicate from `_apply_filters`: the lower-cased
needle is contained in the lower-cased `courseId` or `courseName`.  This
models the source's `str.contains` only on the literal-pattern fragment
(`isLiteralPattern`), where regex matching equals substring containment;
see `isLiteralPattern` for the regex behaviours this model does not
cover. -/
def courseMatches (needle : String) (r : JoinedRow) : Bool :=
  containsSub needle.data (pyLower r.courseId).data
    || containsSub needle.data (pyLower r.courseName).data

/-- Role predicate from `_apply_filters`: a row is a student row iff its
role compared case-insensitively equals "student". -/
def is_student (r : JoinedRow) : Bool := pyLower r.role == "student"

/-- `_apply_filters` from the source: availability filter (guarded by the
DataFrame being nonempty), then course-substring filter (skipped for a
falsy filter value, i.e. `None` or the empty string), then the role
toggles with the explicit both-flags-true short-circuit.  This function is
total, but its course-filter stage is faithful only for a filter that is
`None`, empty, or a literal pattern: for other needles the source's eager
regex compilation can raise an uncaught `re.error` (even on an empty
frame) or match regex-style — see `isLiteralPattern`.  Theorems
quantifying over the course filter carry that restriction. -/
def _apply_filters (joined_df : List JoinedRow) (course_filter : Option String)
    (include_instructors include_students only_available : Bool) :
    List JoinedRow :=
  let df :=
    if only_available && !joined_df.isEmpty
    then joined_df.filter allAvailable
    else joined_df
  let df :=
    match course_filter with
    | some f =>
      if f.isEmpty then df
      else df.filter (courseMatches (pyLower f))
    | none => df
  let df :=
    if !(include_instructors && include_students)
    then df.filter fun r =>
      (include_students && is_student r)
        || (include_instructors && !(is_student r))
    else df
  df

/-- CSV record with the fixed column set of `_prepare_csv`; the availability
columns are `Bool` before display mapping and `String` ("Yes"/"No") after. -/
structure CsvRecord (α : Type) where
  courseInternalId : String
  courseId : String
  courseName : String
  term : String
  userId : String
  userName : String
  userFullName : String
  email : String
  role : String
  enrollmentAvailable : α
  userAvailable : α
  courseAvailable : α
  deriving DecidableEq, Repr

/-- `_prepare_csv` from the source: project each joined row onto the fixed
CSV column set (order is carried by the record's field order). -/
def _prepare_csv (df : List JoinedRow) : List (CsvRecord Bool) :=
  df.map fun r =>
    { courseInternalId := r.courseInternalId
      courseId := r.courseId
      courseName := r.courseName
      term := r.term
      userId := r.userId
      userName := r.userName
      userFullName := r.userFullName
      email := r.email
      role := r.role
      enrollmentAvailable := r.enrollmentAvailable
      userAvailable := r.userAvailable
      courseAvailable := r.courseAvailable }

/-- Display mapping applied in `generate_report`: the three availability
columns are mapped through `yes_no` for the written CSV. -/
def csvDisplay (r : CsvRecord Bool) : CsvRecord String :=
  { courseInternalId := r.courseInternalId
    courseId := r.courseId
    courseName := r.courseName
    term := r.term
    userId := r.userId
    userName := r.userName
    userFullName := r.userFullName
    email := r.email
    role := r.role
    enrollmentAvailable := yes_no r.enrollmentAvailable
    userAvailable := yes_no r.userAvailable
    courseAvailable := yes_no r.courseAvailable }

/-- Render-ready row built in `generate_report` for the HTML template. -/
structure HtmlRow where
  courseLabel : String
  term : String
  userFullName : String
  role : String
  enrollmentAvailable : Bool
  userAvailable : Bool
  courseAvailable : Bool
  deriving DecidableEq, Repr

/-- Projection of a joined row onto the render-ready row set. -/
def toHtmlRow (r : JoinedRow) : HtmlRow :=
  { courseLabel := r.courseLabel
    term := r.term
    userFullName := r.userFullName
    role := r.role
    enrollmentAvailable := r.enrollmentAvailable
    userAvailable := r.userAvailable
    courseAvailable := r.courseAvailable }

/-- Summary counts computed in `generate_report`: distinct course count and
distinct user count (0 when the filtered frame is empty, mirroring the
source's emptiness guards) and total row count. -/
structure Summary where
  courses : Nat
  users : Nat
  enrollments : Nat
  deriving DecidableEq, Repr

/-- Summary computation from `generate_report` (pandas `nunique` is the
number of distinct values in a column). -/
def summaryOf (filtered_df : List JoinedRow) : Summary :=
  { courses :=
      if filtered_df.isEmpty then 0
      else ((filtered_df.map fun r => r.courseInternalId).eraseDups).length
    users :=
      if filtered_df.isEmpty then 0
      else ((filtered_df.map fun r => r.userId).eraseDups).length
    enrollments := filtered_df.length }

/-- Raw value of an `availability` entry in an input record: the key may be
absent, explicitly `null`, or an object that may or may not carry an
`available` key.  (A non-object truthy value under `availability` would
raise `AttributeError` in the source and is outside the modelled raw
domain; the falsy non-object values behave like `null` through the
source's `or {}` and are subsumed by the `null` constructor.) -/
inductive RawAvail where
  | absent
  | null
  | obj (available : Option PyValue)
  deriving DecidableEq, Repr

/-- Value handed to `_coerce_available_to_bool` by the loaders:
`(item.get("availability") or {}).get("available")`, with Python's `None`
represented as `PyValue.vNone`. -/
def availValue : RawAvail → PyValue
  | .absent => .vNone
  | .null => .vNone
  | .obj none => .vNone
  | .obj (some v) => v

/-- Loader-side normalization applied to every raw record before model
construction: `item_copy["availability"] = {"available": coerce(avail)}`. -/
def normalizeAvailability (av : RawAvail) : RawAvail :=
  .obj (some (.vBool (_coerce_available_to_bool (availValue av))))

/-- Raw course record (keys of interest; pydantic ignores extra keys). -/
structure RawCourse where
  id : Option PyValue
  courseId : Option PyValue
  name : Option PyValue
  description : Option PyValue
  availability : RawAvail
  deriving DecidableEq, Repr

/-- Raw nested `name` object of a user record. -/
structure RawUserName where
  given : Option PyValue
  family : Option PyValue
  deriving DecidableEq, Repr

/-- Raw nested `contact` object of a user record. -/
structure RawContact where
  email : Option PyValue
  deriving DecidableEq, Repr

/-- Raw user record. -/
structure RawUser where
  id : Option PyValue
  userName : Option PyValue
  name : Option RawUserName
  contact : Option RawContact
  availability : RawAvail
  deriving DecidableEq, Repr

/-- Raw enrollment record. -/
structure RawEnrollment where
  id : Option PyValue
  userId : Option PyValue
  courseId : Option PyValue
  role : Option PyValue
  availability : RawAvail
  deriving DecidableEq, Repr

/-- Validate a required pydantic `str` field with the strip-before
validator: the key must be present and hold a string, which is stripped.
Any other value (absent, `None`, bool, other) is a validation error. -/
def validateStr (v : Option PyValue) : Except String String :=
  match v with
  | some (.vStr s) => .ok (pyStrip s)
  | some _ => .error "Input should be a valid string"
  | none => .error "Field required"

/-- Validate the `Optional[str]` description field: absent or `None` gives
`none`; a string is stripped; anything else is a validation error. -/
def validateOptStr (v : Option PyValue) : Except String (Option String) :=
  match v with
  | some (.vStr s) => .ok (some (pyStrip s))
  | some .vNone => .ok none
  | some _ => .error "Input should be a valid string"
  | none => .ok none

/-- `Contact` email validator: strip, then require an `@` character. -/
def validateEmail (v : Option PyValue) : Except String String :=
  match v with
  | some (.vStr s) =>
    let value := pyStrip s
    if '@' ∈ value.data then .ok value
    else .error "Invalid email: missing '@'"
  | some _ => .error "Invalid email: missing '@'"
  | none => .error "Field required"

/-- `AvailabilityBool` validation.  The loaders always normalize
`availability` to `{"available": <bool>}` first, so this model only needs
to accept a genuine boolean (pydantic's lax coercions for other inputs are
unreachable through the loaders). -/
def validateAvailBool (av : RawAvail) : Except String Bool :=
  match av with
  | .obj (some (.vBool b)) => .ok b
  | _ => .error "Input should be a valid boolean"

/-- `Course(**item)` model construction on a (normalized) raw record. -/
def validateCourse (r : RawCourse) : Except String Course := do
  let id ← validateStr r.id
  let courseId ← validateStr r.courseId
  let name ← validateStr r.name
  let description ← validateOptStr r.description
  let available ← validateAvailBool r.availability
  .ok { id, courseId, name, description, available }

/-- `User(**item)` model construction on a (normalized) raw record. -/
def validateUser (r : RawUser) : Except String User := do
  let id ← validateStr r.id
  let userName ← validateStr r.userName
  match r.name, r.contact with
  | some nm, some ct => do
    let given ← validateStr nm.given
    let family ← validateStr nm.family
    let email ← validateEmail ct.email
    let available ← validateAvailBool r.availability
    .ok { id, userName, given, family, email, available }
  | _, _ => .error "Field required"

/-- `Enrollment(**item)` model construction on a (normalized) raw record.
The returned list carries the advisory warnings: the role validator logs
"Unknown role" when the role is outside `ALLOWED_ROLES` but accepts the
value unchanged. -/
def validateEnrollment (r : RawEnrollment) :
    Except String (Enrollment × List String) := do
  let id ← validateStr r.id
  let userId ← validateStr r.userId
  let courseId ← validateStr r.courseId
  let role ← validateStr r.role
  let warnings := if role ∈ ALLOWED_ROLES then [] else ["Unknown role: " ++ role]
  let available ← validateAvailBool r.availability
  .ok ({ id, userId, courseId, role, available }, warnings)

/-- Content of one expected JSON file in the data directory. -/
inductive FileContent (α : Type) where
  | missing
  | notArray
  | array (items : List α)
  deriving DecidableEq, Repr

/-- The data directory: the three expected input files. -/
structure DataDir where
  courses : FileContent RawCourse
  users : FileContent RawUser
  enrollments : FileContent RawEnrollment
  deriving DecidableEq, Repr

/-- Fatal error kinds of a run, mirroring the exception types the source
raises and the CLI boundary catches: `FileNotFoundError`, the
"Expected an array" `ValueError`, and pydantic's `ValidationError`. -/
inductive RunError where
  | fileNotFound
  | invalidShape
  | validation (msg : String)
  deriving DecidableEq, Repr

/-- `_read_json_array` from the source: missing file and non-array top
level are fatal; otherwise the element list is returned. -/
def _read_json_array {α : Type} (f : FileContent α) : Except RunError (List α) :=
  match f with
  | .missing => .error .fileNotFound
  | .notArray => .error .invalidShape
  | .array items => .ok items

/-- `load_courses` from the source: read `courses.json`, normalize each
record's availability, then construct models (fail-fast on the first
invalid record). -/
def load_courses (data_dir : DataDir) : Except RunError (List Course) := do
  let raw ← _read_json_array data_dir.courses
  let normalized := raw.map fun item =>
    { item with availability := normalizeAvailability item.availability }
  (normalized.mapM validateCourse).mapError RunError.validation

/-- `load_users` from the source. -/
def load_users (data_dir : DataDir) : Except RunError (List User) := do
  let raw ← _read_json_array data_dir.users
  let normalized := raw.map fun item =>
    { item with availability := normalizeAvailability item.availability }
  (normalized.mapM validateUser).mapError RunError.validation

/-- `load_enrollments` from the source (the advisory warnings are logged,
not returned, so they are dropped here). -/
def load_enrollments (data_dir : DataDir) : Except RunError (List Enrollment) := do
  let raw ← _read_json_array data_dir.enrollments
  let normalized := raw.map fun item =>
    { item with availability := normalizeAvailability item.availability }
  ((normalized.mapM validateEnrollment).map (fun l => l.map Prod.fst)).mapError
    RunError.validation

/-- Run parameters echoed into the audit record (the filter arguments;
directory paths and the wall-clock timestamp are not modelled). -/
structure AuditArgs where
  course_filter : Option String
  include_instructors : Bool
  include_students : Bool
  only_available : Bool
  deriving DecidableEq, Repr

/-- Audit record written by `generate_report`: arguments, pre-filter input
sizes and post-filter output sizes. -/
structure Audit where
  args : AuditArgs
  input_courses : Nat
  input_users : Nat
  input_enrollments : Nat
  csv_rows : Nat
  unique_courses : Nat
  unique_users : Nat
  deriving DecidableEq, Repr

/-- One output-file side effect of `generate_report`, in program order:
the output-directory creation, then the CSV, HTML and audit writes. -/
inductive WriteEvent where
  | mkdirOut
  | writeCsv (rows : List (CsvRecord String))
  | writeHtml (rows : List HtmlRow) (summary : Summary)
  | writeAudit (audit : Audit)
  deriving DecidableEq, Repr

/-- The three artifacts of a successful run. -/
structure ReportOutputs where
  csv : List (CsvRecord String)
  html : List HtmlRow
  summary : Summary
  audit : Audit
  deriving DecidableEq, Repr

/-- `generate_report` from the source: load and validate the three inputs
(any load failure propagates before anything is written), build the
DataFrames, join, filter, and only then create the output directory and
write CSV, HTML and audit JSON.  The second component is the ordered list
of file-system write effects the run performs. -/
def generate_report (data_dir : DataDir) (course_filter : Option String)
    (include_instructors include_students only_available : Bool) :
    Except RunError ReportOutputs × List WriteEvent :=
  match load_courses data_dir with
  | .error e => (.error e, [])
  | .ok courses =>
  match load_users data_dir with
  | .error e => (.error e, [])
  | .ok users =>
  match load_enrollments data_dir with
  | .error e => (.error e, [])
  | .ok enrollments =>
    let dfs := _build_dataframes courses users enrollments
    let joined_df := _join_frames dfs.1 dfs.2.1 dfs.2.2
    let filtered_df := _apply_filters joined_df course_filter
      include_instructors include_students only_available
    let csv_rows := (_prepare_csv filtered_df).map csvDisplay
    let rows_for_html := filtered_df.map toHtmlRow
    let summary := summaryOf filtered_df
    let audit : Audit :=
      { args :=
          { course_filter, include_instructors, include_students,
            only_available }
        input_courses := courses.length
        input_users := users.length
        input_enrollments := enrollments.length
        csv_rows := csv_rows.length
        unique_courses := summary.courses
        unique_users := summary.users }
    (.ok { csv := csv_rows, html := rows_for_html, summary, audit },
     [.mkdirOut, .writeCsv csv_rows, .writeHtml rows_for_html summary,
      .writeAudit audit])

end ReportGen

/-- Claim C1: every row of the joined result has a `userId` equal to the
id of some user row and a course key equal to the id of some course row of
the inputs; enrollments whose `userId` or `courseId` resolves to no
existing user or course contribute nothing to the result — dropping them
first yields the same output, and the join is a total function, so
unresolved references never raise an error or abort the run. -/
theorem ReportGen.join_referential_integrity
    (courses_df : List ReportGen.CourseRow) (users_df : List ReportGen.UserRow)
    (enrollments_df : List ReportGen.EnrollmentRow) :
    (∀ r ∈ ReportGen._join_frames courses_df users_df enrollments_df,
      (∃ u ∈ users_df, u.userId = r.userId) ∧
        (∃ c ∈ courses_df, c.courseInternalId = r.courseInternalId))
    ∧ ReportGen._join_frames courses_df users_df enrollments_df =
        ReportGen._join_frames courses_df users_df
          (enrollments_df.filter fun e =>
            (users_df.any fun u => u.userId == e.userId)
              && (courses_df.any fun c => c.courseInternalId == e.courseInternalId)) := by
  constructor
  · intro r hr
    simp only [_join_frames, List.mem_flatMap, List.mem_filter, List.mem_map] at hr
    obtain ⟨e, _, u, ⟨hu, hueq⟩, c, ⟨hc, hceq⟩, hr⟩ := hr
    subst hr
    exact ⟨⟨u, hu, by simpa [mkJoinedRow] using eq_of_beq hueq⟩,
           ⟨c, hc, by simpa [mkJoinedRow] using eq_of_beq hceq⟩⟩
  · induction enrollments_df with
    | nil => rfl
    | cons e es ih =>
      by_cases hk : ((users_df.any fun u => u.userId == e.userId)
          && (courses_df.any fun c => c.courseInternalId == e.courseInternalId)) = true
      · simp only [_join_frames, List.flatMap_cons, List.filter_cons, hk, if_true]
        simp only [_join_frames] at ih
        rw [ih]
      · have hk' : ((users_df.any fun u => u.userId == e.userId)
            && (courses_df.any fun c =>
              c.courseInternalId == e.courseInternalId)) = false :=
          Bool.eq_false_iff.mpr hk
        have hnil :
            ((users_df.filter fun u => u.userId == e.userId).flatMap fun u =>
              (courses_df.filter fun c =>
                  c.courseInternalId == e.courseInternalId).map fun c =>
                mkJoinedRow e u c) = [] := by
          cases ha : (users_df.any fun u => u.userId == e.userId) with
          | false =>
            have hfil : (users_df.filter fun u => u.userId == e.userId) = [] :=
              List.filter_eq_nil_iff.mpr (by simpa using List.any_eq_false.mp ha)
            rw [hfil]; rfl
          | true =>
            have hb : (courses_df.any fun c =>
                c.courseInternalId == e.courseInternalId) = false := by
              rw [ha] at hk'; simpa using hk'
            have hfil : (courses_df.filter fun c =>
                c.courseInternalId == e.courseInternalId) = [] :=
              List.filter_eq_nil_iff.mpr (by simpa using List.any_eq_false.mp hb)
            simp [hfil]
        simp only [_join_frames, List.flatMap_cons, List.filter_cons, hk',
          Bool.false_eq_true, if_false]
        simp only [_join_frames] at ih
        rw [hnil, List.nil_append, ih]

/-- Claim C1 witness: the referential-integrity theorem applied to a
concrete run with one resolvable and one orphaned enrollment. -/
theorem ReportGen.join_referential_integrity_witness :
    (∃ u ∈ [({ userId := "u1", userName := "a", given := "G", family := "F",
                email := "g@x", userAvailable := true } : ReportGen.UserRow)],
        u.userId =
          (ReportGen.mkJoinedRow
            { enrollmentId := "e1", userId := "u1", courseInternalId := "c1",
              role := "Student", enrollmentAvailable := true }
            { userId := "u1", userName := "a", given := "G", family := "F",
              email := "g@x", userAvailable := true }
            { courseInternalId := "c1", courseId := "CS101-2025FA",
              courseName := "Intro", term := "2025FA",
              courseAvailable := true }).userId) := by
  have h := (ReportGen.join_referential_integrity
    [{ courseInternalId := "c1", courseId := "CS101-2025FA",
       courseName := "Intro", term := "2025FA", courseAvailable := true }]
    [{ userId := "u1", userName := "a", given := "G", family := "F",
       email := "g@x", userAvailable := true }]
    [{ enrollmentId := "e1", userId := "u1", courseInternalId := "c1",
       role := "Student", enrollmentAvailable := true },
     { enrollmentId := "e2", userId := "ghost", courseInternalId := "c1",
       role := "Student", enrollmentAvailable := true }]).1
  exact (h _ (by decide)).1

/-- Claim C2 counterexample: with two users sharing the id "u1" and a
single enrollment referencing it, the join produces two output rows (one
per matching user), not exactly one row built from the first match. -/
theorem ReportGen.join_duplicate_key_counterexample :
    (ReportGen._join_frames
      [{ courseInternalId := "c1", courseId := "CS101-2025FA",
         courseName := "Intro", term := "2025FA", courseAvailable := true }]
      [{ userId := "u1", userName := "a", given := "G", family := "F",
         email := "g@x", userAvailable := true },
       { userId := "u1", userName := "b", given := "H", family := "K",
         email := "h@x", userAvailable := true }]
      [{ enrollmentId := "e1", userId := "u1", courseInternalId := "c1",
         role := "Student", enrollmentAvailable := true }]).length = 2
    ∧ ¬ (ReportGen._join_frames
      [{ courseInternalId := "c1", courseId := "CS101-2025FA",
         courseName := "Intro", term := "2025FA", courseAvailable := true }]
      [{ userId := "u1", userName := "a", given := "G", family := "F",
         email := "g@x", userAvailable := true },
       { userId := "u1", userName := "b", given := "H", family := "K",
         email := "h@x", userAvailable := true }]
      [{ enrollmentId := "e1", userId := "u1", courseInternalId := "c1",
         role := "Student", enrollmentAvailable := true }]).length = 1 := by
  constructor <;> decide

/-- Claim C2 as amended: on duplicate keys the join keeps every match, not
only the first — each enrollment contributes one output row per matching
(user, course) pair, so the row count is the sum over enrollments of
(number of users with that `userId`) × (number of courses with that
internal id); the output is still a deterministic function of the inputs
(it is a pure function preserving input order). -/
theorem ReportGen.join_duplicate_keys_all_pairs
    (courses_df : List ReportGen.CourseRow) (users_df : List ReportGen.UserRow)
    (enrollments_df : List ReportGen.EnrollmentRow) :
    (ReportGen._join_frames courses_df users_df enrollments_df).length =
      (enrollments_df.map fun e =>
        (users_df.countP fun u => u.userId == e.userId) *
          (courses_df.countP fun c =>
            c.courseInternalId == e.courseInternalId)).sum := by
  simp only [_join_frames, List.length_flatMap, List.map_map]
  refine congrArg List.sum (List.map_congr_left ?_)
  intro e _
  simp only [Function.comp, List.length_flatMap, List.map_map,
    List.length_map, List.countP_eq_length_filter]
  induction users_df with
  | nil => simp
  | cons u us ih =>
    by_cases hu : (u.userId == e.userId) = true <;>
      simp [List.filter_cons, hu, ih, Nat.add_mul, Nat.one_mul, Nat.add_comm]

/-- Claim C3: availability coercion is a total function returning `true`
iff the input is the boolean `true` or a string whose trimmed lowercase
form is one of "yes", "true", "y", "1"; it returns `false` for every other
value (the boolean `false`, no-set strings, unrecognized strings, `None`,
and anything else).  In particular coerce("Yes")=true, coerce("no")=false,
coerce(true)=true, coerce("maybe")=false, coerce(None)=false. -/
theorem ReportGen.coerce_available_total_conservative :
    (∀ v : ReportGen.PyValue,
      ReportGen._coerce_available_to_bool v = true ↔
        (v = .vBool true ∨
          ∃ s, v = .vStr s ∧
            ReportGen.pyLower (ReportGen.pyStrip s) ∈ ["yes", "true", "y", "1"]))
    ∧ ReportGen._coerce_available_to_bool (.vStr "Yes") = true
    ∧ ReportGen._coerce_available_to_bool (.vStr "no") = false
    ∧ ReportGen._coerce_available_to_bool (.vBool true) = true
    ∧ ReportGen._coerce_available_to_bool (.vStr "maybe") = false
    ∧ ReportGen._coerce_available_to_bool .vNone = false := by
  refine ⟨?_, by decide, by decide, by decide, by decide, by decide⟩
  intro v
  cases v with
  | vStr s =>
    simp only [_coerce_available_to_bool]
    constructor
    · intro h
      by_cases hy : pyLower (pyStrip s) ∈ ["yes", "true", "y", "1"]
      · exact Or.inr ⟨s, rfl, hy⟩
      · simp only [hy, if_false] at h
        split at h <;> simp_all
    · rintro (h | ⟨t, ht, hmem⟩)
      · exact absurd h (by simp)
      · cases ht
        simp [hmem]
  | vBool b =>
    cases b <;> simp [_coerce_available_to_bool]
  | vNone => simp [_coerce_available_to_bool]
  | vOther => simp [_coerce_available_to_bool]

/-- Claim C4: with no availability or course filtering active, the role
filter keeps exactly the rows satisfying (include_students AND the row is
a student row) OR (include_instructors AND the row is not a student row);
the both-flags-true short-circuit returns the same set as this
OR-predicate applied to every row, and with both flags false the result is
empty regardless of roles. -/
theorem ReportGen.role_filter_or_equivalence
    (df : List ReportGen.JoinedRow) (include_instructors include_students : Bool) :
    ReportGen._apply_filters df none include_instructors include_students false =
      df.filter (fun r =>
        (include_students && ReportGen.is_student r)
          || (include_instructors && !(ReportGen.is_student r)))
    ∧ (include_instructors = false → include_students = false →
        ReportGen._apply_filters df none include_instructors include_students false
          = []) := by
  constructor
  · cases include_instructors <;> cases include_students <;>
      simp [_apply_filters, List.filter_true, List.filter_false, Bool.or_not_self]
  · intro hi hs
    subst hi; subst hs
    simp [_apply_filters, List.filter_false]

/-- Claim C4 witness: the role-filter theorem applied with both flags
false to a concrete one-row frame yields the empty result. -/
theorem ReportGen.role_filter_or_equivalence_witness :
    ReportGen._apply_filters
      [ReportGen.mkJoinedRow
        { enrollmentId := "e1", userId := "u1", courseInternalId := "c1",
          role := "Student", enrollmentAvailable := true }
        { userId := "u1", userName := "a", given := "G", family := "F",
          email := "g@x", userAvailable := true }
        { courseInternalId := "c1", courseId := "CS101-2025FA",
          courseName := "Intro", term := "2025FA", courseAvailable := true }]
      none false false false = [] :=
  (ReportGen.role_filter_or_equivalence
    [ReportGen.mkJoinedRow
      { enrollmentId := "e1", userId := "u1", courseInternalId := "c1",
        role := "Student", enrollmentAvailable := true }
      { userId := "u1", userName := "a", given := "G", family := "F",
        email := "g@x", userAvailable := true }
      { courseInternalId := "c1", courseId := "CS101-2025FA",
        courseName := "Intro", term := "2025FA", courseAvailable := true }]
    false false).2 rfl rfl

/-- Reference definition following the spec's words for the derived-field
claim: perform the inner join first, matching on the raw entity fields
only, and only then compute the three derived fields (`userFullName`,
`courseLabel`, `term`) on each surviving row. -/
def ReportGen.joinThenDeriveSpec (courses : List ReportGen.Course)
    (users : List ReportGen.User) (enrollments : List ReportGen.Enrollment) :
    List ReportGen.JoinedRow :=
  enrollments.flatMap fun e =>
    (users.filter fun u => u.id == e.userId).flatMap fun u =>
      (courses.filter fun c => c.id == e.courseId).map fun c =>
        { enrollmentId := e.id
          userId := e.userId
          courseInternalId := e.courseId
          role := e.role
          enrollmentAvailable := e.available
          userName := u.userName
          given := u.given
          family := u.family
          email := u.email
          userAvailable := u.available
          courseId := c.courseId
          courseName := c.name
          term := ReportGen.term_of c.courseId
          courseAvailable := c.available
          userFullName := ReportGen.pyStrip (u.given ++ " " ++ u.family)
          courseLabel := c.courseId ++ " – " ++ c.name }

/-- Claim C5: the pipeline's joined output (DataFrame construction, where
`term` is precomputed per course, followed by `_join_frames`, which adds
`userFullName` and `courseLabel` after the merges) equals the reference
that first performs the inner join on raw entity fields and only then
computes the three derived fields on each surviving row — so no join
decision ever depends on a derived value. -/
theorem ReportGen.derived_fields_after_join (courses : List ReportGen.Course)
    (users : List ReportGen.User) (enrollments : List ReportGen.Enrollment) :
    ReportGen._join_frames
        (ReportGen._build_dataframes courses users enrollments).1
        (ReportGen._build_dataframes courses users enrollments).2.1
        (ReportGen._build_dataframes courses users enrollments).2.2 =
      ReportGen.joinThenDeriveSpec courses users enrollments := by
  simp only [_build_dataframes, _join_frames, joinThenDeriveSpec,
    List.flatMap_map, List.filter_map, List.map_map]
  refine List.flatMap_congr ?_
  intro e _
  rfl

/-- Auxiliary: `Except.mapError` does not change whether a result is ok. -/
theorem ReportGen.isOk_mapError {e1 e2 α : Type} (f : e1 → e2)
    (x : Except e1 α) : (x.mapError f).isOk = x.isOk := by
  cases x <;> rfl

/-- Auxiliary: the fail-fast `mapM` over `Except` succeeds iff every
element validates. -/
theorem ReportGen.mapM_except_isOk {α β : Type} (f : α → Except String β)
    (l : List α) :
    (l.mapM f).isOk = true ↔ ∀ a ∈ l, (f a).isOk = true := by
  induction l with
  | nil =>
    rw [List.mapM_nil]
    simp [pure, Except.pure, Except.isOk, Except.toBool]
  | cons a l ih =>
    rw [List.mapM_cons]
    cases hf : f a with
    | error e => simp [hf, bind, Except.bind, Except.isOk, Except.toBool]
    | ok b =>
      cases hm : l.mapM f with
      | error e2 =>
        rw [hm] at ih
        simp only [Except.isOk, Except.toBool] at ih
        simp [hf, hm, bind, Except.bind, Except.isOk, Except.toBool,
          List.forall_mem_cons, ← ih]
      | ok bs =>
        rw [hm] at ih
        simp only [Except.isOk, Except.toBool] at ih
        simp [hf, hm, bind, Except.bind, pure, Except.pure, Except.isOk,
          Except.toBool, List.forall_mem_cons, ← ih]

/-- Claim C6: if any load fails (missing input file, non-array top level,
or a field-validation failure), `generate_report` performs no file-system
write at all; and on success it performs exactly the complete write
sequence — output directory creation followed by the CSV, HTML and audit
writes — so the outputs are all-or-nothing. -/
theorem ReportGen.no_partial_output_on_failure (data_dir : ReportGen.DataDir)
    (course_filter : Option String)
    (include_instructors include_students only_available : Bool) :
    ((ReportGen.generate_report data_dir course_filter include_instructors
        include_students only_available).1.isOk = false →
      (ReportGen.generate_report data_dir course_filter include_instructors
        include_students only_available).2 = [])
    ∧ (∀ out, (ReportGen.generate_report data_dir course_filter
          include_instructors include_students only_available).1 = .ok out →
        (ReportGen.generate_report data_dir course_filter include_instructors
          include_students only_available).2 =
          [.mkdirOut, .writeCsv out.csv, .writeHtml out.html out.summary,
           .writeAudit out.audit]) := by
  cases hc : load_courses data_dir with
  | error e => simp [generate_report, hc, Except.isOk, Except.toBool]
  | ok cs =>
    cases hu : load_users data_dir with
    | error e => simp [generate_report, hc, hu, Except.isOk, Except.toBool]
    | ok us =>
      cases he : load_enrollments data_dir with
      | error e => simp [generate_report, hc, hu, he, Except.isOk, Except.toBool]
      | ok es =>
        constructor
        · intro h
          simp [generate_report, hc, hu, he, Except.isOk, Except.toBool] at h
        · intro out hout
          simp only [generate_report, hc, hu, he, Except.ok.injEq] at hout
          simp [generate_report, hc, hu, he, ← hout]

/-- Claim C6 witness: the all-or-nothing theorem applied to a concrete run
whose courses file is missing (no writes happen) and to a concrete
successful empty run (all four write events happen). -/
theorem ReportGen.no_partial_output_on_failure_witness :
    (ReportGen.generate_report
      { courses := .missing, users := .array [], enrollments := .array [] }
      none true true false).2 = []
    ∧ (ReportGen.generate_report
        { courses := .array [], users := .array [], enrollments := .array [] }
        none true true false).2 =
      [.mkdirOut, .writeCsv [], .writeHtml [] ⟨0, 0, 0⟩,
       .writeAudit ⟨⟨none, true, true, false⟩, 0, 0, 0, 0, 0, 0⟩] :=
  ⟨(ReportGen.no_partial_output_on_failure
      { courses := .missing, users := .array [], enrollments := .array [] }
      none true true false).1 (by decide),
   (ReportGen.no_partial_output_on_failure
      { courses := .array [], users := .array [], enrollments := .array [] }
      none true true false).2
     { csv := [], html := [], summary := ⟨0, 0, 0⟩,
       audit := ⟨⟨none, true, true, false⟩, 0, 0, 0, 0, 0, 0⟩ } rfl⟩

/-- Claim C7 counterexample: `load_courses` succeeds on an input whose two
course records share the id "A" and returns both of them, so a load can
succeed while returning a collection whose ids are not unique. -/
theorem ReportGen.load_duplicate_ids_counterexample :
    ReportGen.load_courses
      { courses := .array
          [{ id := some (.vStr "A"), courseId := some (.vStr "CS1-1"),
             name := some (.vStr "N1"), description := none,
             availability := .absent },
           { id := some (.vStr "A"), courseId := some (.vStr "CS2-1"),
             name := some (.vStr "N2"), description := none,
             availability := .absent }],
        users := .array [], enrollments := .array [] } =
      .ok [{ id := "A", courseId := "CS1-1", name := "N1",
             description := none, available := false },
           { id := "A", courseId := "CS2-1", name := "N2",
             description := none, available := false }]
    ∧ ¬ (List.map ReportGen.Course.id
          [{ id := "A", courseId := "CS1-1", name := "N1",
             description := none, available := false },
           { id := "A", courseId := "CS2-1", name := "N2",
             description := none, available := false }]).Nodup := by
  exact ⟨by decide, by decide⟩

/-- Claim C7 as amended: loads are element-wise only — `load_courses` and
`load_users` succeed iff every raw record individually validates after
availability normalization; no cross-record uniqueness condition on `id`
is checked, so a successful load can return duplicate ids. -/
theorem ReportGen.load_success_elementwise
    (rawC : List ReportGen.RawCourse) (rawU : List ReportGen.RawUser)
    (fc : ReportGen.FileContent ReportGen.RawCourse)
    (fu : ReportGen.FileContent ReportGen.RawUser)
    (fe : ReportGen.FileContent ReportGen.RawEnrollment) :
    ((ReportGen.load_courses
        { courses := .array rawC, users := fu, enrollments := fe }).isOk = true ↔
      ∀ r ∈ rawC, (ReportGen.validateCourse
        { r with
          availability :=
            ReportGen.normalizeAvailability r.availability }).isOk = true)
    ∧ ((ReportGen.load_users
        { courses := fc, users := .array rawU, enrollments := fe }).isOk = true ↔
      ∀ r ∈ rawU, (ReportGen.validateUser
        { r with
          availability :=
            ReportGen.normalizeAvailability r.availability }).isOk = true) := by
  constructor
  · rw [load_courses]
    simp only [_read_json_array, bind, Except.bind, isOk_mapError,
      mapM_except_isOk, List.forall_mem_map]
  · rw [load_users]
    simp only [_read_json_array, bind, Except.bind, isOk_mapError,
      mapM_except_isOk, List.forall_mem_map]

/-- Claim C7 amended-theorem witness: the element-wise criterion applied
to the concrete duplicate-id input shows the load succeeds. -/
theorem ReportGen.load_success_elementwise_witness :
    (ReportGen.load_courses
      { courses := .array
          [{ id := some (.vStr "A"), courseId := some (.vStr "CS1-1"),
             name := some (.vStr "N1"), description := none,
             availability := .absent },
           { id := some (.vStr "A"), courseId := some (.vStr "CS2-1"),
             name := some (.vStr "N2"), description := none,
             availability := .absent }],
        users := .array [], enrollments := .array [] }).isOk = true :=
  (ReportGen.load_success_elementwise
    [{ id := some (.vStr "A"), courseId := some (.vStr "CS1-1"),
       name := some (.vStr "N1"), description := none,
       availability := .absent },
     { id := some (.vStr "A"), courseId := some (.vStr "CS2-1"),
       name := some (.vStr "N2"), description := none,
       availability := .absent }] [] (.array []) (.array [])
    (.array [])).1.mpr (by decide)

/-- Claim C8: enrollment validation never rejects a record because of its
role — replacing the role string by any other string leaves acceptance
unchanged; and an accepted enrollment keeps its (stripped) role value
unchanged, with the advisory "Unknown role" warning emitted exactly when
the role is outside the recognized set. -/
theorem ReportGen.role_advisory_only (r : ReportGen.RawEnrollment)
    (s t : String) :
    ((ReportGen.validateEnrollment { r with role := some (.vStr s) }).isOk =
      (ReportGen.validateEnrollment { r with role := some (.vStr t) }).isOk)
    ∧ (∀ e ws,
        ReportGen.validateEnrollment { r with role := some (.vStr s) } =
          .ok (e, ws) →
        e.role = ReportGen.pyStrip s
        ∧ (ws = [] ↔ ReportGen.pyStrip s ∈ ReportGen.ALLOWED_ROLES)
        ∧ (ReportGen.pyStrip s ∉ ReportGen.ALLOWED_ROLES →
            ws = ["Unknown role: " ++ ReportGen.pyStrip s])) := by
  have hs : validateStr (some (.vStr s)) = .ok (pyStrip s) := rfl
  have ht : validateStr (some (.vStr t)) = .ok (pyStrip t) := rfl
  cases h1 : validateStr r.id with
  | error e1 =>
    constructor
    · simp [validateEnrollment, h1, bind, Except.bind]
    · intro e ws hok
      simp [validateEnrollment, h1, bind, Except.bind] at hok
  | ok v1 =>
    cases h2 : validateStr r.userId with
    | error e2 =>
      constructor
      · simp [validateEnrollment, h1, h2, bind, Except.bind]
      · intro e ws hok
        simp [validateEnrollment, h1, h2, bind, Except.bind] at hok
    | ok v2 =>
      cases h3 : validateStr r.courseId with
      | error e3 =>
        constructor
        · simp [validateEnrollment, h1, h2, h3, bind, Except.bind]
        · intro e ws hok
          simp [validateEnrollment, h1, h2, h3, bind, Except.bind] at hok
      | ok v3 =>
        cases h4 : validateAvailBool r.availability with
        | error e4 =>
          constructor
          · simp [validateEnrollment, h1, h2, h3, h4, hs, ht, bind,
              Except.bind]
          · intro e ws hok
            simp [validateEnrollment, h1, h2, h3, h4, hs, bind,
              Except.bind] at hok
        | ok b =>
          constructor
          · simp [validateEnrollment, h1, h2, h3, h4, hs, ht, bind,
              Except.bind, pure, Except.pure, Except.isOk, Except.toBool]
          · intro e ws hok
            simp only [validateEnrollment, h1, h2, h3, h4, hs, bind,
              Except.bind, pure, Except.pure, Except.ok.injEq,
              Prod.mk.injEq] at hok
            obtain ⟨he, hws⟩ := hok
            subst he
            by_cases hmem : ReportGen.pyStrip s ∈ ReportGen.ALLOWED_ROLES
            · simp only [hmem, if_true] at hws
              simp [hmem, ← hws]
            · simp only [hmem, if_false] at hws
              simp [hmem, ← hws]

/-- Claim C8 witness: the role-advisory theorem applied to a concrete
record with the unrecognized role "SuperRole" (and "Student" as the
comparison role): the record is accepted, the role survives unchanged, and
exactly the advisory warning is produced. -/
theorem ReportGen.role_advisory_only_witness :
    ("SuperRole" = ReportGen.pyStrip "SuperRole")
    ∧ ((["Unknown role: SuperRole"] : List String) = [] ↔
        ReportGen.pyStrip "SuperRole" ∈ ReportGen.ALLOWED_ROLES)
    ∧ (ReportGen.pyStrip "SuperRole" ∉ ReportGen.ALLOWED_ROLES →
        (["Unknown role: SuperRole"] : List String) =
          ["Unknown role: " ++ ReportGen.pyStrip "SuperRole"]) :=
  (ReportGen.role_advisory_only
    { id := some (.vStr "e1"), userId := some (.vStr "u1"),
      courseId := some (.vStr "c1"), role := some (.vStr "x"),
      availability := .obj (some (.vBool true)) } "SuperRole" "Student").2
    { id := "e1", userId := "u1", courseId := "c1", role := "SuperRole",
      available := true }
    ["Unknown role: SuperRole"] (by decide)

/-- Claim C9: if any of the three row lists is empty, the join returns the
empty row list without error (columns are structural in the typed rows, so
they are always present); the summary counts of an empty filtered frame
are all zero; and a full run on three empty input arrays succeeds,
producing empty-bodied CSV and HTML artifacts and an all-zero audit, for
every role/availability toggle setting and every course filter in the
modelled fragment — absent or a metacharacter-free literal pattern.  (The
restriction is load-bearing: the source compiles the course filter as a
regex eagerly even on an empty frame, so a malformed pattern such as "("
raises an uncaught `re.error` and the run does not succeed; that path is
outside this embedding — see `isLiteralPattern`.) -/
theorem ReportGen.empty_inputs_ok
    (courses_df : List ReportGen.CourseRow) (users_df : List ReportGen.UserRow)
    (enrollments_df : List ReportGen.EnrollmentRow)
    (h : courses_df = [] ∨ users_df = [] ∨ enrollments_df = [])
    (course_filter : Option String)
    (include_instructors include_students only_available : Bool)
    (hcf : course_filter = none ∨
      ∃ f, course_filter = some f ∧ ReportGen.isLiteralPattern f = true) :
    ReportGen._join_frames courses_df users_df enrollments_df = []
    ∧ ReportGen.summaryOf [] = ⟨0, 0, 0⟩
    ∧ (ReportGen.generate_report
        { courses := .array [], users := .array [], enrollments := .array [] }
        course_filter include_instructors include_students only_available).1 =
      .ok { csv := [], html := [], summary := ⟨0, 0, 0⟩,
            audit := ⟨⟨course_filter, include_instructors, include_students,
              only_available⟩, 0, 0, 0, 0, 0, 0⟩ } := by
  have hfil : ReportGen._apply_filters [] course_filter include_instructors
      include_students only_available = [] := by
    cases course_filter <;> simp [_apply_filters]
  refine ⟨?_, rfl, ?_⟩
  · rcases h with h | h | h <;> subst h
    · simp [_join_frames]
    · simp [_join_frames]
    · rfl
  · have hload : ∀ d : DataDir, d = ⟨.array [], .array [], .array []⟩ →
        load_courses d = .ok [] ∧ load_users d = .ok [] ∧
          load_enrollments d = .ok [] := by
      intro d hd; subst hd; exact ⟨rfl, rfl, rfl⟩
    obtain ⟨hc, hu, he⟩ := hload _ rfl
    simp [generate_report, hc, hu, he, _build_dataframes, _join_frames,
      hfil, _prepare_csv, summaryOf]

/-- Claim C9 witness: the empty-input theorem applied with an empty course
list (and nonempty other inputs), at the concrete literal course filter
"cs101" and concrete toggles. -/
theorem ReportGen.empty_inputs_ok_witness :
    ReportGen._join_frames []
      [{ userId := "u1", userName := "a", given := "G", family := "F",
         email := "g@x", userAvailable := true }]
      [{ enrollmentId := "e1", userId := "u1", courseInternalId := "c1",
         role := "Student", enrollmentAvailable := true }] = [] :=
  (ReportGen.empty_inputs_ok []
    [{ userId := "u1", userName := "a", given := "G", family := "F",
       email := "g@x", userAvailable := true }]
    [{ enrollmentId := "e1", userId := "u1", courseInternalId := "c1",
       role := "Student", enrollmentAvailable := true }]
    (Or.inl rfl) (some "cs101") true true false
    (Or.inr ⟨"cs101", rfl, by decide⟩)).1

/-- Claim C10: a raw record whose availability is entirely absent,
explicitly null, or an object lacking the `available` key is given the
normalized availability object `{"available": false}` before model
validation; such a record is never rejected because of its availability —
for courses, load/validation success depends only on the other fields, and
for users and enrollments success is identical to the same record with a
perfectly well-formed availability — and every entity loaded from such a
record carries `available = false`. -/
theorem ReportGen.missing_availability_defaults_false
    (av : ReportGen.RawAvail)
    (hav : av = .absent ∨ av = .null ∨ av = .obj none) :
    ReportGen.normalizeAvailability av = .obj (some (.vBool false))
    ∧ (∀ r : ReportGen.RawCourse,
        ((ReportGen.validateCourse
            { r with
              availability := ReportGen.normalizeAvailability av }).isOk = true ↔
          ((ReportGen.validateStr r.id).isOk = true
            ∧ (ReportGen.validateStr r.courseId).isOk = true
            ∧ (ReportGen.validateStr r.name).isOk = true
            ∧ (ReportGen.validateOptStr r.description).isOk = true))
        ∧ (∀ c, ReportGen.validateCourse
            { r with
              availability := ReportGen.normalizeAvailability av } = .ok c →
            c.available = false)
        ∧ ∀ (fu : ReportGen.FileContent ReportGen.RawUser)
            (fe : ReportGen.FileContent ReportGen.RawEnrollment),
            (ReportGen.load_courses
              { courses := .array [{ r with availability := av }],
                users := fu, enrollments := fe }).isOk =
              (ReportGen.validateCourse
                { r with
                  availability := ReportGen.normalizeAvailability av }).isOk)
    ∧ (∀ r : ReportGen.RawUser,
        ((ReportGen.validateUser
            { r with
              availability := ReportGen.normalizeAvailability av }).isOk =
          (ReportGen.validateUser
            { r with availability := .obj (some (.vBool true)) }).isOk)
        ∧ (∀ u, ReportGen.validateUser
            { r with
              availability := ReportGen.normalizeAvailability av } = .ok u →
            u.available = false))
    ∧ (∀ r : ReportGen.RawEnrollment,
        ((ReportGen.validateEnrollment
            { r with
              availability := ReportGen.normalizeAvailability av }).isOk =
          (ReportGen.validateEnrollment
            { r with availability := .obj (some (.vBool true)) }).isOk)
        ∧ (∀ p, ReportGen.validateEnrollment
            { r with
              availability := ReportGen.normalizeAvailability av } = .ok p →
            p.1.available = false)) := by
  have hnorm : normalizeAvailability av = .obj (some (.vBool false)) := by
    rcases hav with h | h | h <;> subst h <;> rfl
  refine ⟨hnorm, ?_, ?_, ?_⟩
  · intro r
    refine ⟨?_, ?_, ?_⟩
    · rw [hnorm]
      cases h1 : validateStr r.id <;> cases h2 : validateStr r.courseId <;>
        cases h3 : validateStr r.name <;>
        cases h4 : validateOptStr r.description <;>
        simp [validateCourse, h1, h2, h3, h4, bind, Except.bind, pure,
          Except.pure, validateAvailBool, Except.isOk, Except.toBool]
    · rw [hnorm]
      intro c hc
      cases h1 : validateStr r.id with
      | error e1 => simp [validateCourse, h1, bind, Except.bind] at hc
      | ok v1 =>
        cases h2 : validateStr r.courseId with
        | error e2 => simp [validateCourse, h1, h2, bind, Except.bind] at hc
        | ok v2 =>
          cases h3 : validateStr r.name with
          | error e3 =>
            simp [validateCourse, h1, h2, h3, bind, Except.bind] at hc
          | ok v3 =>
            cases h4 : validateOptStr r.description with
            | error e4 =>
              simp [validateCourse, h1, h2, h3, h4, bind, Except.bind] at hc
            | ok v4 =>
              simp only [validateCourse, h1, h2, h3, h4, bind, Except.bind,
                pure, Except.pure, validateAvailBool,
                Except.ok.injEq] at hc
              simp [← hc]
    · intro fu fe
      simp only [load_courses, _read_json_array, bind, Except.bind,
        List.map_cons, List.map_nil]
      rw [List.mapM_cons]
      cases hv : validateCourse
          { r with availability := normalizeAvailability av } with
      | error e => rfl
      | ok c => rfl
  · intro r
    rw [hnorm]
    cases h1 : validateStr r.id with
    | error e1 =>
      constructor
      · simp [validateUser, h1, bind, Except.bind]
      · intro u hu; simp [validateUser, h1, bind, Except.bind] at hu
    | ok v1 =>
      cases h2 : validateStr r.userName with
      | error e2 =>
        constructor
        · simp [validateUser, h1, h2, bind, Except.bind]
        · intro u hu; simp [validateUser, h1, h2, bind, Except.bind] at hu
      | ok v2 =>
        cases hn : r.name with
        | none =>
          constructor
          · simp [validateUser, h1, h2, hn, bind, Except.bind]
          · intro u hu
            simp [validateUser, h1, h2, hn, bind, Except.bind] at hu
        | some nm =>
          cases hct : r.contact with
          | none =>
            constructor
            · simp [validateUser, h1, h2, hn, hct, bind, Except.bind]
            · intro u hu
              simp [validateUser, h1, h2, hn, hct, bind, Except.bind] at hu
          | some ct =>
            cases h3 : validateStr nm.given with
            | error e3 =>
              constructor
              · simp [validateUser, h1, h2, hn, hct, h3, bind, Except.bind]
              · intro u hu
                simp [validateUser, h1, h2, hn, hct, h3, bind,
                  Except.bind] at hu
            | ok v3 =>
              cases h4 : validateStr nm.family with
              | error e4 =>
                constructor
                · simp [validateUser, h1, h2, hn, hct, h3, h4, bind,
                    Except.bind]
                · intro u hu
                  simp [validateUser, h1, h2, hn, hct, h3, h4, bind,
                    Except.bind] at hu
              | ok v4 =>
                cases h5 : validateEmail ct.email with
                | error e5 =>
                  constructor
                  · simp [validateUser, h1, h2, hn, hct, h3, h4, h5, bind,
                      Except.bind]
                  · intro u hu
                    simp [validateUser, h1, h2, hn, hct, h3, h4, h5, bind,
                      Except.bind] at hu
                | ok v5 =>
                  constructor
                  · simp [validateUser, h1, h2, hn, hct, h3, h4, h5, bind,
                      Except.bind, pure, Except.pure, validateAvailBool,
                      Except.isOk, Except.toBool]
                  · intro u hu
                    simp only [validateUser, h1, h2, hn, hct, h3, h4, h5,
                      bind, Except.bind, pure, Except.pure,
                      validateAvailBool, Except.ok.injEq] at hu
                    simp [← hu]
  · intro r
    rw [hnorm]
    cases h1 : validateStr r.id with
    | error e1 =>
      constructor
      · simp [validateEnrollment, h1, bind, Except.bind]
      · intro p hp; simp [validateEnrollment, h1, bind, Except.bind] at hp
    | ok v1 =>
      cases h2 : validateStr r.userId with
      | error e2 =>
        constructor
        · simp [validateEnrollment, h1, h2, bind, Except.bind]
        · intro p hp
          simp [validateEnrollment, h1, h2, bind, Except.bind] at hp
      | ok v2 =>
        cases h3 : validateStr r.courseId with
        | error e3 =>
          constructor
          · simp [validateEnrollment, h1, h2, h3, bind, Except.bind]
          · intro p hp
            simp [validateEnrollment, h1, h2, h3, bind, Except.bind] at hp
        | ok v3 =>
          cases h4 : validateStr r.role with
          | error e4 =>
            constructor
            · simp [validateEnrollment, h1, h2, h3, h4, bind, Except.bind]
            · intro p hp
              simp [validateEnrollment, h1, h2, h3, h4, bind,
                Except.bind] at hp
          | ok v4 =>
            constructor
            · simp [validateEnrollment, h1, h2, h3, h4, bind, Except.bind,
                pure, Except.pure, validateAvailBool, Except.isOk,
                Except.toBool]
            · intro p hp
              simp only [validateEnrollment, h1, h2, h3, h4, bind,
                Except.bind, pure, Except.pure, validateAvailBool,
                Except.ok.injEq] at hp
              simp [← hp]

/-- Claim C10 witness: the defaulting theorem applied with an entirely
absent availability to a concrete course record: the normalization result
and the element-wise success criterion are exhibited at that input. -/
theorem ReportGen.missing_availability_defaults_false_witness :
    ReportGen.normalizeAvailability .absent = .obj (some (.vBool false))
    ∧ (({ id := "A", courseId := "CS1-1", name := "N1", description := none,
          available := false } : ReportGen.Course).available = false) :=
  ⟨(ReportGen.missing_availability_defaults_false .absent (Or.inl rfl)).1,
   ((ReportGen.missing_availability_defaults_false .absent (Or.inl rfl)).2.1
      { id := some (.vStr "A"), courseId := some (.vStr "CS1-1"),
        name := some (.vStr "N1"), description := none,
        availability := .absent }).2.1
     { id := "A", courseId := "CS1-1", name := "N1", description := none,
       available := false } (by decide)⟩

/-- Claim C3 witness: the coercion characterization applied at the
concrete input `true`. -/
theorem ReportGen.coerce_available_total_conservative_witness :
    ReportGen._coerce_available_to_bool (.vBool true) = true :=
  ((ReportGen.coerce_available_total_conservative).1 (.vBool true)).mpr
    (Or.inl rfl)
